import Mathlib

/-!
Shallow embedding of `src/backend/server.js` (CrowdFuel backend): an Express
app exposing a health check, four Stripe-backed business endpoints and a
webhook endpoint.  Each Express handler is embedded as a pure Lean function
from the request body (fields `Option`-valued, since JS bodies may omit
fields) and a stubbed Stripe client to an HTTP response paired with the
trace of external calls issued (each tagged with whether it succeeded).
The webhook handler is embedded as a function from the outcome of
`stripe.webhooks.constructEvent` to a response paired with the list of
`console.log` lines.
-/

/-- JSON values, as produced by `res.json(...)` in the handlers. -/
inductive Json where
  | str  : String → Json
  | num  : Int → Json
  | bool : Bool → Json
  | obj  : List (String × Json) → Json

/-- Field lookup in a JSON object (first match wins, like JS object literals
with distinct keys). -/
def Json.getField : Json → String → Option Json
  | .obj fields, k => (fields.find? (fun p => p.fst == k)).map Prod.snd
  | _, _ => none

/-- An HTTP response body: `res.json(...)` sends JSON, `res.send(string)`
sends text (used only by the webhook failure path). -/
inductive Body where
  | json : Json → Body
  | text : String → Body

/-- An HTTP response: status code (Express defaults to 200 for `res.json`
without `res.status`) and body. -/
structure HttpResponse where
  status : Nat
  body   : Body

/-- Field lookup in a JSON response body. -/
def HttpResponse.field (r : HttpResponse) (k : String) : Option Json :=
  match r.body with
  | .json j => j.getField k
  | .text _ => none

/-- Parameters the handler passes to `stripe.accounts.create` (server.js
lines 55-64). -/
structure AccountCreateParams where
  acctType : String
  country : String
  email : String
  cardPaymentsRequested : Bool
  transfersRequested : Bool
  businessType : String
deriving DecidableEq, Repr

/-- Parameters the handler passes to `stripe.accountLinks.create`
(server.js lines 69-74). -/
structure AccountLinkParams where
  account : String
  refreshUrl : String
  returnUrl : String
  linkType : String
deriving DecidableEq, Repr

/-- Parameters the handler passes to `stripe.paymentIntents.create`
(server.js lines 129-144). -/
structure PaymentIntentParams where
  amount : Int
  currency : String
  applicationFeeAmount : Int
  transferDestination : String
  description : Option String
  automaticPaymentMethods : Bool
  metadataBandStripeAccountId : String
  metadataPlatformFee : Int
deriving DecidableEq, Repr

/-- One external Stripe API call, with the parameters sent. -/
inductive ExtCall where
  | accountsCreate (p : AccountCreateParams)
  | accountLinksCreate (p : AccountLinkParams)
  | accountsRetrieve (accountId : String)
  | paymentIntentsCreate (p : PaymentIntentParams)
  | createLoginLink (accountId : String)
deriving DecidableEq, Repr

/-- An external call as it happened: the call plus whether the platform
accepted it (a succeeded call is an external side effect; a failed one
raised an error and had no effect). -/
structure ExtEvent where
  call : ExtCall
  succeeded : Bool
deriving DecidableEq, Repr

/-- A Stripe account object, restricted to the fields the handlers read. -/
structure Account where
  id : String
  chargesEnabled : Bool
  payoutsEnabled : Bool
  detailsSubmitted : Bool
deriving DecidableEq, Repr

/-- A Stripe account-link object, restricted to the field read. -/
structure AccountLink where
  url : String
deriving DecidableEq, Repr

/-- A Stripe payment-intent object, restricted to the fields read. -/
structure PaymentIntentObj where
  clientSecret : String
  id : String
deriving DecidableEq, Repr

/-- A Stripe login-link object, restricted to the field read. -/
structure LoginLink where
  url : String
deriving DecidableEq, Repr

/-- A stub of the external Stripe client: for each operation, what the
external platform would answer (`.ok` a response object, `.error` a thrown
error message). -/
structure StripeStub where
  accountsCreate : AccountCreateParams → Except String Account
  accountLinksCreate : AccountLinkParams → Except String AccountLink
  accountsRetrieve : String → Except String Account
  paymentIntentsCreate : PaymentIntentParams → Except String PaymentIntentObj
  createLoginLink : String → Except String LoginLink

/-- JS truthiness of a possibly-absent string field: `undefined` and the
empty string are falsy, every other string is truthy. -/
def strTruthy : Option String → Bool
  | none => false
  | some s => !(s == "")

/-- JS truthiness of a possibly-absent integer field: `undefined` and `0`
are falsy. -/
def intTruthy : Option Int → Bool
  | none => false
  | some a => !(a == 0)

/-- Error message of the TypeError raised when the handlers dereference the
uninitialized `stripe` handle (secret key missing at startup, server.js
lines 11-21): modelled as a fixed message. -/
def stripeUnavailableMsg : String := "Cannot read properties of undefined"

/-- A 500 response carrying an error message, as produced by every
`catch` block via `res.status(500).json({ error: error.message })`. -/
def errorResponse (msg : String) : HttpResponse :=
  ⟨500, .json (.obj [("error", .str msg)])⟩

/-- Math.round(amount * 0.05) of server.js line 126, embedded over exact
integer arithmetic: JS Math.round rounds half toward positive infinity, so
for integer `a` the result is floor(a / 20 + 1 / 2) = fdiv (a + 10) 20.
The double-precision product `a * 0.05` agrees with the exact value
`a / 20` to within far less than the distance to the nearest rounding
boundary for all minor-unit integer amounts, so the embedding is exact on
the domain the spec quantifies over. -/
def mathRound5pct (a : Int) : Int := (a + 10) / 20

/-- Request body of POST /create-connect-account (server.js line 48). -/
structure ConnectAccountReq where
  bandId : Option String
  email : Option String
  country : Option String
deriving DecidableEq, Repr

/-- Request body of POST /connect-account-status and
POST /payout-dashboard-link (server.js lines 93 and 165). -/
structure AccountIdReq where
  accountId : Option String
deriving DecidableEq, Repr

/-- Request body of POST /create-payment-intent (server.js line 119). -/
structure PaymentIntentReq where
  amount : Option Int
  currency : Option String
  bandStripeAccountId : Option String
  description : Option String
deriving DecidableEq, Repr

/-- Parameters of `stripe.accounts.create` as built at server.js lines
55-64 (type express, requested card-payment and transfer capabilities,
individual business type). -/
def accountCreateParams (country email : String) : AccountCreateParams :=
  ⟨"express", country, email, true, true, "individual"⟩

/-- Parameters of `stripe.accountLinks.create` as built at server.js lines
69-74: the return URL embeds the new account id and the bandId. -/
def accountLinkParams (accountId bandId : String) : AccountLinkParams :=
  ⟨accountId,
   "https://crowdfuel-86c2b.web.app/connect/refresh.html",
   "https://crowdfuel-86c2b.web.app/connect/return.html?accountId=" ++
     accountId ++ "&bandId=" ++ bandId,
   "account_onboarding"⟩

/-- Body of the try block of POST /create-connect-account after
validation (server.js lines 55-79): call `stripe.accounts.create`, then
`stripe.accountLinks.create`, answer `{accountId, onboardingUrl}`; a
thrown error is caught and yields `500 {error}`. -/
def createConnectAccountCore (s : StripeStub) (bandId email country : String) :
    HttpResponse × List ExtEvent :=
  let p := accountCreateParams country email
  match s.accountsCreate p with
  | .error msg => (errorResponse msg, [⟨.accountsCreate p, false⟩])
  | .ok account =>
    let lp := accountLinkParams account.id bandId
    match s.accountLinksCreate lp with
    | .error msg =>
      (errorResponse msg,
       [⟨.accountsCreate p, true⟩, ⟨.accountLinksCreate lp, false⟩])
    | .ok link =>
      (⟨200, .json (.obj [("accountId", .str account.id),
                          ("onboardingUrl", .str link.url)])⟩,
       [⟨.accountsCreate p, true⟩, ⟨.accountLinksCreate lp, true⟩])

/-- Handler of POST /create-connect-account (server.js lines 46-84):
validate `bandId` and `email` by truthiness, then run the try-block body.
`stripe = none` models the uninitialized handle, whose dereference throws
and is caught by the same catch. -/
def createConnectAccount (stripe : Option StripeStub) (req : ConnectAccountReq) :
    HttpResponse × List ExtEvent :=
  if !(strTruthy req.bandId && strTruthy req.email) then
    (⟨400, .json (.obj [("error", .str "bandId and email are required")])⟩, [])
  else
    match stripe with
    | none => (errorResponse stripeUnavailableMsg, [])
    | some s =>
      createConnectAccountCore s (req.bandId.getD "") (req.email.getD "")
        (req.country.getD "US")

/-- Body of the try block of POST /connect-account-status after validation
(server.js lines 99-105). -/
def connectAccountStatusCore (s : StripeStub) (aid : String) :
    HttpResponse × List ExtEvent :=
  match s.accountsRetrieve aid with
  | .error msg => (errorResponse msg, [⟨.accountsRetrieve aid, false⟩])
  | .ok account =>
    (⟨200, .json (.obj [("chargesEnabled", .bool account.chargesEnabled),
                        ("payoutsEnabled", .bool account.payoutsEnabled),
                        ("detailsSubmitted", .bool account.detailsSubmitted)])⟩,
     [⟨.accountsRetrieve aid, true⟩])

/-- Handler of POST /connect-account-status (server.js lines 91-110). -/
def connectAccountStatus (stripe : Option StripeStub) (req : AccountIdReq) :
    HttpResponse × List ExtEvent :=
  if !(strTruthy req.accountId) then
    (⟨400, .json (.obj [("error", .str "accountId is required")])⟩, [])
  else
    match stripe with
    | none => (errorResponse stripeUnavailableMsg, [])
    | some s => connectAccountStatusCore s (req.accountId.getD "")

/-- Parameters of `stripe.paymentIntents.create` as built at server.js
lines 129-144: application fee and metadata fee are both the computed
platform fee, the transfer destination and the metadata account id are
both the caller-supplied destination account. -/
def paymentIntentParams (amount : Int) (currency dest : String)
    (descr : Option String) : PaymentIntentParams :=
  ⟨amount, currency, mathRound5pct amount, dest, descr, true, dest,
   mathRound5pct amount⟩

/-- Body of the try block of POST /create-payment-intent after validation
(server.js lines 126-151): compute the 5% platform fee, call
`stripe.paymentIntents.create` once, answer
`{clientSecret, paymentIntentId, platformFee, bandAmount}`. -/
def createPaymentIntentCore (s : StripeStub) (amount : Int)
    (currency dest : String) (descr : Option String) :
    HttpResponse × List ExtEvent :=
  let platformFee := mathRound5pct amount
  let p := paymentIntentParams amount currency dest descr
  match s.paymentIntentsCreate p with
  | .error msg => (errorResponse msg, [⟨.paymentIntentsCreate p, false⟩])
  | .ok intent =>
    (⟨200, .json (.obj [("clientSecret", .str intent.clientSecret),
                        ("paymentIntentId", .str intent.id),
                        ("platformFee", .num platformFee),
                        ("bandAmount", .num (amount - platformFee))])⟩,
     [⟨.paymentIntentsCreate p, true⟩])

/-- Handler of POST /create-payment-intent (server.js lines 117-156):
validate `amount` and `bandStripeAccountId` by truthiness, then run the
try-block body. -/
def createPaymentIntent (stripe : Option StripeStub) (req : PaymentIntentReq) :
    HttpResponse × List ExtEvent :=
  if !(intTruthy req.amount && strTruthy req.bandStripeAccountId) then
    (⟨400, .json (.obj [("error", .str "amount and bandStripeAccountId are required")])⟩, [])
  else
    match stripe with
    | none => (errorResponse stripeUnavailableMsg, [])
    | some s =>
      createPaymentIntentCore s (req.amount.getD 0) (req.currency.getD "usd")
        (req.bandStripeAccountId.getD "") req.description

/-- Body of the try block of POST /payout-dashboard-link after validation
(server.js lines 171-175). -/
def payoutDashboardLinkCore (s : StripeStub) (aid : String) :
    HttpResponse × List ExtEvent :=
  match s.createLoginLink aid with
  | .error msg => (errorResponse msg, [⟨.createLoginLink aid, false⟩])
  | .ok link =>
    (⟨200, .json (.obj [("url", .str link.url)])⟩, [⟨.createLoginLink aid, true⟩])

/-- Handler of POST /payout-dashboard-link (server.js lines 163-180). -/
def payoutDashboardLink (stripe : Option StripeStub) (req : AccountIdReq) :
    HttpResponse × List ExtEvent :=
  if !(strTruthy req.accountId) then
    (⟨400, .json (.obj [("error", .str "accountId is required")])⟩, [])
  else
    match stripe with
    | none => (errorResponse stripeUnavailableMsg, [])
    | some s => payoutDashboardLinkCore s (req.accountId.getD "")

/-- Handler of GET / (server.js lines 34-36).  `stripe` is the module-scope
client handle, which the handler body never reads; `nowIso` is the string
`new Date().toISOString()` supplied by the runtime clock. -/
def healthCheck (_stripe : Option StripeStub) (nowIso : String) : HttpResponse :=
  ⟨200, .json (.obj [("status", .str "CrowdFuel Backend Running"),
                     ("timestamp", .str nowIso)])⟩

/-- The object carried in `event.data.object` of a webhook event,
restricted to the fields the dispatch branches read.
`transferDestination` models `transfer_data?.destination`, whose optional
chaining may yield `undefined` (printed as such by console.log). -/
structure EventObject where
  id : String
  applicationFeeAmount : Int
  transferDestination : Option String
  chargesEnabled : Bool
  payoutsEnabled : Bool
  amount : Int
  destination : String
deriving DecidableEq, Repr

/-- A verified Stripe webhook event: its `type` string and data object. -/
structure StripeEvent where
  eventType : String
  object : EventObject
deriving DecidableEq, Repr

/-- Rendering of a possibly-undefined value by console.log. -/
def renderOpt : Option String → String
  | none => "undefined"
  | some s => s

/-- The five event kinds the switch of server.js lines 200-235 handles. -/
def handledEventTypes : List String :=
  ["payment_intent.succeeded", "payment_intent.payment_failed",
   "account.updated", "transfer.created", "payout.paid"]

/-- Handler of POST /webhook (server.js lines 186-238).  Its argument is
the outcome of `stripe.webhooks.constructEvent(req.body, sig, secret)`:
`.ok` a verified event, `.error` the thrown verification error message.
Returns the response and the console log lines, in order. -/
def webhook (verify : Except String StripeEvent) : HttpResponse × List String :=
  match verify with
  | .error msg =>
    (⟨400, .text ("Webhook Error: " ++ msg)⟩,
     ["Webhook signature verification failed: " ++ msg])
  | .ok event =>
    let logs :=
      if event.eventType == "payment_intent.succeeded" then
        ["PaymentIntent succeeded: " ++ event.object.id,
         "Platform fee: " ++ toString event.object.applicationFeeAmount,
         "Band account: " ++ renderOpt event.object.transferDestination]
      else if event.eventType == "payment_intent.payment_failed" then
        ["PaymentIntent failed: " ++ event.object.id]
      else if event.eventType == "account.updated" then
        ["Account updated: " ++ event.object.id,
         "Charges enabled: " ++ toString event.object.chargesEnabled,
         "Payouts enabled: " ++ toString event.object.payoutsEnabled]
      else if event.eventType == "transfer.created" then
        ["Transfer created: " ++ event.object.id,
         "Amount: " ++ toString event.object.amount,
         "Destination: " ++ event.object.destination]
      else if event.eventType == "payout.paid" then
        ["Payout completed: " ++ event.object.id,
         "Amount: " ++ toString event.object.amount]
      else
        ["Unhandled event type " ++ event.eventType]
    (⟨200, .json (.obj [("received", .bool true)])⟩, logs)

/-! Concrete stubs and requests used to instantiate the theorems. -/

/-- A stub on which every external operation succeeds, answering the
objects of the end-to-end scenario of the spec. -/
def stubOk : StripeStub where
  accountsCreate := fun _ => .ok ⟨"acct_1", true, true, true⟩
  accountLinksCreate := fun _ => .ok ⟨"https://example/link"⟩
  accountsRetrieve := fun _ => .ok ⟨"acct_1", true, true, true⟩
  paymentIntentsCreate := fun _ => .ok ⟨"cs_1", "pi_1"⟩
  createLoginLink := fun _ => .ok ⟨"https://example/dash"⟩

/-- A stub on which account creation succeeds but account-link creation
fails, exhibiting the partial-failure state of POST /create-connect-account. -/
def stubLinkFails : StripeStub where
  accountsCreate := fun _ => .ok ⟨"acct_1", false, false, false⟩
  accountLinksCreate := fun _ => .error "link creation failed"
  accountsRetrieve := fun _ => .error "unused"
  paymentIntentsCreate := fun _ => .error "unused"
  createLoginLink := fun _ => .error "unused"

/-- The connect-account request of the end-to-end scenario. -/
def reqConnectB1 : ConnectAccountReq := ⟨some "b1", some "e@x.com", none⟩

/-- A connect-account request with the bandId field absent. -/
def reqConnectNoBand : ConnectAccountReq := ⟨none, some "e@x.com", none⟩

/-- A connect-account request with an empty (falsy) bandId. -/
def reqConnectEmptyBand : ConnectAccountReq := ⟨some "", some "e@x.com", none⟩

/-- The payment-intent request of the end-to-end scenario (100.00 units). -/
def reqPay10000 : PaymentIntentReq := ⟨some 10000, none, some "acct_1", none⟩

/-- A payment-intent request with amount present but zero (falsy). -/
def reqPayZero : PaymentIntentReq := ⟨some 0, none, some "acct_1", none⟩

/-- A payment-intent request with an empty (falsy) destination account. -/
def reqPayEmptyDest : PaymentIntentReq := ⟨some 10000, none, some "", none⟩

/-- A payment-intent request with the amount field absent. -/
def reqPayNoAmount : PaymentIntentReq := ⟨none, none, some "acct_1", none⟩

/-- A well-formed accountId request. -/
def reqAid : AccountIdReq := ⟨some "acct_1"⟩

/-- An accountId request with the field absent. -/
def reqAidNone : AccountIdReq := ⟨none⟩

/-- An accountId request with an empty (falsy) accountId. -/
def reqAidEmpty : AccountIdReq := ⟨some ""⟩

/-- A webhook event of a kind outside the five handled kinds. -/
def eventUnknown : StripeEvent := ⟨"invoice.created", ⟨"obj_1", 0, none, false, false, 0, ""⟩⟩

/-! Helper lemmas shared by the claim theorems. -/

/-- The embedded Math.round(a * 0.05) is the half-up rounding of a / 20:
it is the unique integer f with -10 < 20 f - a ≤ 10. -/
theorem mathRound5pct_bounds (a : Int) :
    -10 < 20 * mathRound5pct a - a ∧ 20 * mathRound5pct a - a ≤ 10 := by
  unfold mathRound5pct
  omega

/-- Failing validation short-circuits POST /create-connect-account. -/
theorem createConnectAccount_invalid (st : Option StripeStub) (req : ConnectAccountReq)
    (h : (strTruthy req.bandId && strTruthy req.email) = false) :
    createConnectAccount st req =
      (⟨400, .json (.obj [("error", .str "bandId and email are required")])⟩, []) := by
  unfold createConnectAccount
  rw [h]
  rfl

/-- Passing validation hands POST /create-connect-account to its try-block
body. -/
theorem createConnectAccount_validated (s : StripeStub) (req : ConnectAccountReq)
    (h : (strTruthy req.bandId && strTruthy req.email) = true) :
    createConnectAccount (some s) req =
      createConnectAccountCore s (req.bandId.getD "") (req.email.getD "")
        (req.country.getD "US") := by
  unfold createConnectAccount
  rw [h]
  rfl

/-- Failing validation short-circuits POST /connect-account-status. -/
theorem connectAccountStatus_invalid (st : Option StripeStub) (req : AccountIdReq)
    (h : strTruthy req.accountId = false) :
    connectAccountStatus st req =
      (⟨400, .json (.obj [("error", .str "accountId is required")])⟩, []) := by
  unfold connectAccountStatus
  rw [h]
  rfl

/-- Passing validation hands POST /connect-account-status to its try-block
body. -/
theorem connectAccountStatus_validated (s : StripeStub) (req : AccountIdReq)
    (h : strTruthy req.accountId = true) :
    connectAccountStatus (some s) req = connectAccountStatusCore s (req.accountId.getD "") := by
  unfold connectAccountStatus
  rw [h]
  rfl

/-- Failing validation short-circuits POST /create-payment-intent. -/
theorem createPaymentIntent_invalid (st : Option StripeStub) (req : PaymentIntentReq)
    (h : (intTruthy req.amount && strTruthy req.bandStripeAccountId) = false) :
    createPaymentIntent st req =
      (⟨400, .json (.obj [("error", .str "amount and bandStripeAccountId are required")])⟩, []) := by
  unfold createPaymentIntent
  rw [h]
  rfl

/-- Passing validation hands POST /create-payment-intent to its try-block
body. -/
theorem createPaymentIntent_validated (s : StripeStub) (req : PaymentIntentReq)
    (h : (intTruthy req.amount && strTruthy req.bandStripeAccountId) = true) :
    createPaymentIntent (some s) req =
      createPaymentIntentCore s (req.amount.getD 0) (req.currency.getD "usd")
        (req.bandStripeAccountId.getD "") req.description := by
  unfold createPaymentIntent
  rw [h]
  rfl

/-- Failing validation short-circuits POST /payout-dashboard-link. -/
theorem payoutDashboardLink_invalid (st : Option StripeStub) (req : AccountIdReq)
    (h : strTruthy req.accountId = false) :
    payoutDashboardLink st req =
      (⟨400, .json (.obj [("error", .str "accountId is required")])⟩, []) := by
  unfold payoutDashboardLink
  rw [h]
  rfl

/-- Passing validation hands POST /payout-dashboard-link to its try-block
body. -/
theorem payoutDashboardLink_validated (s : StripeStub) (req : AccountIdReq)
    (h : strTruthy req.accountId = true) :
    payoutDashboardLink (some s) req = payoutDashboardLinkCore s (req.accountId.getD "") := by
  unfold payoutDashboardLink
  rw [h]
  rfl

/-- Claim C1: every accepted POST /create-payment-intent request with
integer amount a ≥ 0 answers a response whose platformFee field f is
round(a * 0.05) — characterized as the unique integer with
-10 < 20 f - a ≤ 10, half rounded toward positive infinity as JS
Math.round does — and whose bandAmount field is exactly a - f.  The
witness checks the spec instance amount 10000, platformFee 500,
bandAmount 9500. -/
theorem C1_fee_and_band_amount (s : StripeStub) (req : PaymentIntentReq) (a : Int)
    (hamt : req.amount = some a) (hnn : 0 ≤ a)
    (h200 : (createPaymentIntent (some s) req).fst.status = 200) :
    ∃ f cs piid,
      (createPaymentIntent (some s) req).fst =
        ⟨200, .json (.obj [("clientSecret", .str cs),
                           ("paymentIntentId", .str piid),
                           ("platformFee", .num f),
                           ("bandAmount", .num (a - f))])⟩ ∧
      -10 < 20 * f - a ∧ 20 * f - a ≤ 10 := by
  cases hc : intTruthy req.amount && strTruthy req.bandStripeAccountId with
  | false =>
    rw [createPaymentIntent_invalid (some s) req hc] at h200
    exact absurd h200 (by decide)
  | true =>
    rw [createPaymentIntent_validated s req hc, hamt, Option.getD_some] at h200 ⊢
    cases hres : s.paymentIntentsCreate (paymentIntentParams a (req.currency.getD "usd")
        (req.bandStripeAccountId.getD "") req.description) with
    | error msg =>
      simp [createPaymentIntentCore, hres, errorResponse] at h200
    | ok intent =>
      refine ⟨mathRound5pct a, intent.clientSecret, intent.id, ?_,
        (mathRound5pct_bounds a).1, (mathRound5pct_bounds a).2⟩
      simp [createPaymentIntentCore, hres]

theorem C1_fee_and_band_amount_witness :
    reqPay10000.amount = some 10000 ∧ (0 : Int) ≤ 10000 ∧
    (createPaymentIntent (some stubOk) reqPay10000).fst.status = 200 ∧
    (∃ f cs piid,
      (createPaymentIntent (some stubOk) reqPay10000).fst =
        ⟨200, .json (.obj [("clientSecret", .str cs),
                           ("paymentIntentId", .str piid),
                           ("platformFee", .num f),
                           ("bandAmount", .num (10000 - f))])⟩ ∧
      -10 < 20 * f - 10000 ∧ 20 * f - 10000 ≤ 10) ∧
    (createPaymentIntent (some stubOk) reqPay10000).fst =
      ⟨200, .json (.obj [("clientSecret", .str "cs_1"),
                         ("paymentIntentId", .str "pi_1"),
                         ("platformFee", .num 500),
                         ("bandAmount", .num 9500)])⟩ :=
  ⟨rfl, by decide, rfl,
   C1_fee_and_band_amount stubOk reqPay10000 10000 rfl (by decide) rfl, rfl⟩

/-- Claim C5: a POST /create-connect-account request missing bandId or
email is answered 400 with body exactly
`error: bandId and email are required` and issues no external call. -/
theorem C5_missing_band_or_email (st : Option StripeStub) (req : ConnectAccountReq)
    (h : req.bandId = none ∨ req.email = none) :
    createConnectAccount st req =
      (⟨400, .json (.obj [("error", .str "bandId and email are required")])⟩, []) := by
  apply createConnectAccount_invalid
  rcases h with h | h <;> simp [h, strTruthy]

theorem C5_missing_band_or_email_witness :
    (reqConnectNoBand.bandId = none ∨ reqConnectNoBand.email = none) ∧
    createConnectAccount (some stubOk) reqConnectNoBand =
      (⟨400, .json (.obj [("error", .str "bandId and email are required")])⟩, []) :=
  ⟨Or.inl rfl, C5_missing_band_or_email (some stubOk) reqConnectNoBand (Or.inl rfl)⟩

/-- Claim C6: a POST /connect-account-status or POST /payout-dashboard-link
request missing accountId, and a POST /create-payment-intent request
missing amount or bandStripeAccountId, are answered 400 with an empty
external-call trace, so no external call is attempted. -/
theorem C6_missing_fields_reject_before_call (st : Option StripeStub)
    (r1 : AccountIdReq) (h1 : r1.accountId = none)
    (r2 : PaymentIntentReq) (h2 : r2.amount = none ∨ r2.bandStripeAccountId = none)
    (r3 : AccountIdReq) (h3 : r3.accountId = none) :
    ((connectAccountStatus st r1).fst.status = 400 ∧ (connectAccountStatus st r1).snd = []) ∧
    ((createPaymentIntent st r2).fst.status = 400 ∧ (createPaymentIntent st r2).snd = []) ∧
    ((payoutDashboardLink st r3).fst.status = 400 ∧ (payoutDashboardLink st r3).snd = []) := by
  have hv2 : (intTruthy r2.amount && strTruthy r2.bandStripeAccountId) = false := by
    rcases h2 with h | h <;> simp [h, strTruthy, intTruthy]
  refine ⟨?_, ?_, ?_⟩
  · rw [connectAccountStatus_invalid st r1 (by simp [h1, strTruthy])]
    exact ⟨rfl, rfl⟩
  · rw [createPaymentIntent_invalid st r2 hv2]
    exact ⟨rfl, rfl⟩
  · rw [payoutDashboardLink_invalid st r3 (by simp [h3, strTruthy])]
    exact ⟨rfl, rfl⟩

theorem C6_missing_fields_reject_before_call_witness :
    reqAidNone.accountId = none ∧
    (reqPayNoAmount.amount = none ∨ reqPayNoAmount.bandStripeAccountId = none) ∧
    (((connectAccountStatus (some stubOk) reqAidNone).fst.status = 400 ∧
      (connectAccountStatus (some stubOk) reqAidNone).snd = []) ∧
     ((createPaymentIntent (some stubOk) reqPayNoAmount).fst.status = 400 ∧
      (createPaymentIntent (some stubOk) reqPayNoAmount).snd = []) ∧
     ((payoutDashboardLink (some stubOk) reqAidNone).fst.status = 400 ∧
      (payoutDashboardLink (some stubOk) reqAidNone).snd = [])) :=
  ⟨rfl, Or.inl rfl,
   C6_missing_fields_reject_before_call (some stubOk) reqAidNone rfl
     reqPayNoAmount (Or.inl rfl) reqAidNone rfl⟩

/-- Claim C3: once webhook signature verification succeeds the handler
answers 200 with body received true for every event kind, and for a kind
outside the five recognized kinds the only log output is the single
generic unhandled line, so the handler never answers an error after
verification. -/
theorem C3_webhook_verified_always_ack (e : StripeEvent) :
    (webhook (.ok e)).fst = ⟨200, .json (.obj [("received", .bool true)])⟩ ∧
    (e.eventType ∉ handledEventTypes →
      (webhook (.ok e)).snd = ["Unhandled event type " ++ e.eventType]) := by
  refine ⟨rfl, fun hne => ?_⟩
  simp only [handledEventTypes, List.mem_cons, List.not_mem_nil, or_false, not_or] at hne
  obtain ⟨h1, h2, h3, h4, h5⟩ := hne
  simp [webhook, h1, h2, h3, h4, h5]

theorem C3_webhook_verified_always_ack_witness :
    eventUnknown.eventType ∉ handledEventTypes ∧
    (webhook (.ok eventUnknown)).fst = ⟨200, .json (.obj [("received", .bool true)])⟩ ∧
    (webhook (.ok eventUnknown)).snd = ["Unhandled event type " ++ eventUnknown.eventType] :=
  ⟨by decide,
   (C3_webhook_verified_always_ack eventUnknown).1,
   (C3_webhook_verified_always_ack eventUnknown).2 (by decide)⟩

/-- Claim C4: a webhook request whose signature verification fails with
message m is answered 400 with the text body Webhook Error: m, the only
log output is the verification-failure line (no event dispatch, no event
contents), and the 200 acknowledgment is not sent. -/
theorem C4_webhook_bad_signature (m : String) :
    (webhook (.error m)).fst = ⟨400, .text ("Webhook Error: " ++ m)⟩ ∧
    (webhook (.error m)).snd = ["Webhook signature verification failed: " ++ m] ∧
    (webhook (.error m)).fst.status ≠ 200 :=
  ⟨rfl, rfl, by
    intro h
    have h4 : (400 : Nat) = 200 := h
    omega⟩

theorem C4_webhook_bad_signature_witness :
    (webhook (.error "No signatures found")).fst =
      ⟨400, .text ("Webhook Error: " ++ "No signatures found")⟩ ∧
    (webhook (.error "No signatures found")).snd =
      ["Webhook signature verification failed: " ++ "No signatures found"] ∧
    (webhook (.error "No signatures found")).fst.status ≠ 200 :=
  C4_webhook_bad_signature "No signatures found"

/-- Claim C7: every successful POST /create-connect-account answers
exactly the accountId returned by the external account-creation call and
the url returned by the external account-link call; the witness replays
the end-to-end scenario of the spec with the stubbed client. -/
theorem C7_connect_account_success (s : StripeStub) (req : ConnectAccountReq)
    (h200 : (createConnectAccount (some s) req).fst.status = 200) :
    ∃ acct link,
      s.accountsCreate
        (accountCreateParams (req.country.getD "US") (req.email.getD "")) = .ok acct ∧
      s.accountLinksCreate
        (accountLinkParams acct.id (req.bandId.getD "")) = .ok link ∧
      (createConnectAccount (some s) req).fst =
        ⟨200, .json (.obj [("accountId", .str acct.id),
                           ("onboardingUrl", .str link.url)])⟩ := by
  cases hc : strTruthy req.bandId && strTruthy req.email with
  | false =>
    rw [createConnectAccount_invalid (some s) req hc] at h200
    exact absurd h200 (by decide)
  | true =>
    rw [createConnectAccount_validated s req hc] at h200 ⊢
    cases ha : s.accountsCreate
        (accountCreateParams (req.country.getD "US") (req.email.getD "")) with
    | error msg =>
      simp [createConnectAccountCore, ha, errorResponse] at h200
    | ok acct =>
      cases hl : s.accountLinksCreate
          (accountLinkParams acct.id (req.bandId.getD "")) with
      | error msg =>
        simp [createConnectAccountCore, ha, hl, errorResponse] at h200
      | ok link =>
        exact ⟨acct, link, rfl, hl, by simp [createConnectAccountCore, ha, hl]⟩

theorem C7_connect_account_success_witness :
    (createConnectAccount (some stubOk) reqConnectB1).fst.status = 200 ∧
    (∃ acct link,
      stubOk.accountsCreate
        (accountCreateParams (reqConnectB1.country.getD "US")
          (reqConnectB1.email.getD "")) = .ok acct ∧
      stubOk.accountLinksCreate
        (accountLinkParams acct.id (reqConnectB1.bandId.getD "")) = .ok link ∧
      (createConnectAccount (some stubOk) reqConnectB1).fst =
        ⟨200, .json (.obj [("accountId", .str acct.id),
                           ("onboardingUrl", .str link.url)])⟩) ∧
    (createConnectAccount (some stubOk) reqConnectB1).fst =
      ⟨200, .json (.obj [("accountId", .str "acct_1"),
                         ("onboardingUrl", .str "https://example/link")])⟩ :=
  ⟨rfl, C7_connect_account_success stubOk reqConnectB1 rfl, rfl⟩

/-- Claim C8: GET / always answers 200 with status field
CrowdFuel Backend Running and the timestamp supplied by the runtime clock
(an ISO-8601 string, hence parseable); the result does not read the
payment client handle, so with the handle uninitialized (missing secret
key) the health check still succeeds while every validated business
request is answered 500 at call time. -/
theorem C8_health_check_independent (st : Option StripeStub) (now : String)
    (r0 : ConnectAccountReq) (h0 : (strTruthy r0.bandId && strTruthy r0.email) = true)
    (r1 : AccountIdReq) (h1 : strTruthy r1.accountId = true)
    (r2 : PaymentIntentReq)
    (h2 : (intTruthy r2.amount && strTruthy r2.bandStripeAccountId) = true)
    (r3 : AccountIdReq) (h3 : strTruthy r3.accountId = true) :
    healthCheck st now =
      ⟨200, .json (.obj [("status", .str "CrowdFuel Backend Running"),
                         ("timestamp", .str now)])⟩ ∧
    healthCheck st now = healthCheck none now ∧
    (createConnectAccount none r0).fst.status = 500 ∧
    (connectAccountStatus none r1).fst.status = 500 ∧
    (createPaymentIntent none r2).fst.status = 500 ∧
    (payoutDashboardLink none r3).fst.status = 500 := by
  refine ⟨rfl, rfl, ?_, ?_, ?_, ?_⟩
  · unfold createConnectAccount
    rw [h0]
    rfl
  · unfold connectAccountStatus
    rw [h1]
    rfl
  · unfold createPaymentIntent
    rw [h2]
    rfl
  · unfold payoutDashboardLink
    rw [h3]
    rfl

theorem C8_health_check_independent_witness :
    ((strTruthy reqConnectB1.bandId && strTruthy reqConnectB1.email) = true) ∧
    (strTruthy reqAid.accountId = true) ∧
    ((intTruthy reqPay10000.amount && strTruthy reqPay10000.bandStripeAccountId) = true) ∧
    (healthCheck (some stubOk) "2026-10-12T00:00:00.000Z" =
      ⟨200, .json (.obj [("status", .str "CrowdFuel Backend Running"),
                         ("timestamp", .str "2026-10-12T00:00:00.000Z")])⟩ ∧
     healthCheck (some stubOk) "2026-10-12T00:00:00.000Z" =
       healthCheck none "2026-10-12T00:00:00.000Z" ∧
     (createConnectAccount none reqConnectB1).fst.status = 500 ∧
     (connectAccountStatus none reqAid).fst.status = 500 ∧
     (createPaymentIntent none reqPay10000).fst.status = 500 ∧
     (payoutDashboardLink none reqAid).fst.status = 500) :=
  ⟨rfl, rfl, rfl,
   C8_health_check_independent (some stubOk) "2026-10-12T00:00:00.000Z"
     reqConnectB1 rfl reqAid rfl reqPay10000 rfl reqAid rfl⟩

/-- The connect-account-status try-block issues exactly one external call
and answers 500 only when that call failed. -/
theorem connectAccountStatusCore_atomic (s : StripeStub) (aid : String) :
    (connectAccountStatusCore s aid).snd.length = 1 ∧
    ((connectAccountStatusCore s aid).fst.status = 500 →
      ∀ e ∈ (connectAccountStatusCore s aid).snd, e.succeeded = false) := by
  cases hres : s.accountsRetrieve aid with
  | error msg =>
    refine ⟨by simp [connectAccountStatusCore, hres], fun _ e he => ?_⟩
    simp [connectAccountStatusCore, hres] at he
    simp [he]
  | ok acct =>
    refine ⟨by simp [connectAccountStatusCore, hres], fun h500 => ?_⟩
    simp [connectAccountStatusCore, hres] at h500

/-- The create-payment-intent try-block issues exactly one external call
and answers 500 only when that call failed. -/
theorem createPaymentIntentCore_atomic (s : StripeStub) (a : Int)
    (cur dest : String) (descr : Option String) :
    (createPaymentIntentCore s a cur dest descr).snd.length = 1 ∧
    ((createPaymentIntentCore s a cur dest descr).fst.status = 500 →
      ∀ e ∈ (createPaymentIntentCore s a cur dest descr).snd, e.succeeded = false) := by
  cases hres : s.paymentIntentsCreate (paymentIntentParams a cur dest descr) with
  | error msg =>
    refine ⟨by simp [createPaymentIntentCore, hres], fun _ e he => ?_⟩
    simp [createPaymentIntentCore, hres] at he
    simp [he]
  | ok intent =>
    refine ⟨by simp [createPaymentIntentCore, hres], fun h500 => ?_⟩
    simp [createPaymentIntentCore, hres] at h500

/-- The payout-dashboard-link try-block issues exactly one external call
and answers 500 only when that call failed. -/
theorem payoutDashboardLinkCore_atomic (s : StripeStub) (aid : String) :
    (payoutDashboardLinkCore s aid).snd.length = 1 ∧
    ((payoutDashboardLinkCore s aid).fst.status = 500 →
      ∀ e ∈ (payoutDashboardLinkCore s aid).snd, e.succeeded = false) := by
  cases hres : s.createLoginLink aid with
  | error msg =>
    refine ⟨by simp [payoutDashboardLinkCore, hres], fun _ e he => ?_⟩
    simp [payoutDashboardLinkCore, hres] at he
    simp [he]
  | ok link =>
    refine ⟨by simp [payoutDashboardLinkCore, hres], fun h500 => ?_⟩
    simp [payoutDashboardLinkCore, hres] at h500

/-- The create-connect-account try-block issues one or two external calls. -/
theorem createConnectAccountCore_call_count (s : StripeStub) (b em c : String) :
    1 ≤ (createConnectAccountCore s b em c).snd.length ∧
    (createConnectAccountCore s b em c).snd.length ≤ 2 := by
  cases ha : s.accountsCreate (accountCreateParams c em) with
  | error msg => simp [createConnectAccountCore, ha]
  | ok acct =>
    cases hl : s.accountLinksCreate (accountLinkParams acct.id b) with
    | error msg => simp [createConnectAccountCore, ha, hl]
    | ok link => simp [createConnectAccountCore, ha, hl]

/-- Claim C2 counterexample: on the valid request of the end-to-end
scenario, with a stub whose account creation succeeds and whose link
creation fails, POST /create-connect-account answers 500 while its trace
contains the succeeded account-creation call — an external side effect
performed before the 500 — and on a fully successful stub the same
endpoint issues two external calls, not one. -/
theorem C2_counterexample_two_calls_partial_failure :
    ((createConnectAccount (some stubLinkFails) reqConnectB1).fst.status = 500 ∧
     ((createConnectAccount (some stubLinkFails) reqConnectB1).snd.filter
        (fun e => e.succeeded)) =
       [⟨.accountsCreate (accountCreateParams "US" "e@x.com"), true⟩]) ∧
    (createConnectAccount (some stubOk) reqConnectB1).snd.length = 2 :=
  ⟨⟨rfl, rfl⟩, rfl⟩

/-- Claim C2 amended: POST /connect-account-status,
POST /create-payment-intent and POST /payout-dashboard-link each issue
exactly one external call per validated request and answer 500 only when
that call failed, so no external side effect was performed; but
POST /create-connect-account issues one or two external calls, and its 500
answer does not exclude a performed side effect (the counterexample shows
a 500 after a succeeded account creation). -/
theorem C2_amended_single_call_atomicity (s : StripeStub)
    (r1 : AccountIdReq) (h1 : strTruthy r1.accountId = true)
    (r2 : PaymentIntentReq)
    (h2 : (intTruthy r2.amount && strTruthy r2.bandStripeAccountId) = true)
    (r3 : AccountIdReq) (h3 : strTruthy r3.accountId = true)
    (r0 : ConnectAccountReq)
    (h0 : (strTruthy r0.bandId && strTruthy r0.email) = true) :
    ((connectAccountStatus (some s) r1).snd.length = 1 ∧
     ((connectAccountStatus (some s) r1).fst.status = 500 →
       ∀ e ∈ (connectAccountStatus (some s) r1).snd, e.succeeded = false)) ∧
    ((createPaymentIntent (some s) r2).snd.length = 1 ∧
     ((createPaymentIntent (some s) r2).fst.status = 500 →
       ∀ e ∈ (createPaymentIntent (some s) r2).snd, e.succeeded = false)) ∧
    ((payoutDashboardLink (some s) r3).snd.length = 1 ∧
     ((payoutDashboardLink (some s) r3).fst.status = 500 →
       ∀ e ∈ (payoutDashboardLink (some s) r3).snd, e.succeeded = false)) ∧
    (1 ≤ (createConnectAccount (some s) r0).snd.length ∧
     (createConnectAccount (some s) r0).snd.length ≤ 2) := by
  refine ⟨?_, ?_, ?_, ?_⟩
  · rw [connectAccountStatus_validated s r1 h1]
    exact connectAccountStatusCore_atomic s (r1.accountId.getD "")
  · rw [createPaymentIntent_validated s r2 h2]
    exact createPaymentIntentCore_atomic s (r2.amount.getD 0) (r2.currency.getD "usd")
      (r2.bandStripeAccountId.getD "") r2.description
  · rw [payoutDashboardLink_validated s r3 h3]
    exact payoutDashboardLinkCore_atomic s (r3.accountId.getD "")
  · rw [createConnectAccount_validated s r0 h0]
    exact createConnectAccountCore_call_count s (r0.bandId.getD "") (r0.email.getD "")
      (r0.country.getD "US")

theorem C2_amended_single_call_atomicity_witness :
    (strTruthy reqAid.accountId = true) ∧
    ((intTruthy reqPay10000.amount && strTruthy reqPay10000.bandStripeAccountId) = true) ∧
    ((strTruthy reqConnectB1.bandId && strTruthy reqConnectB1.email) = true) ∧
    (((connectAccountStatus (some stubOk) reqAid).snd.length = 1 ∧
      ((connectAccountStatus (some stubOk) reqAid).fst.status = 500 →
        ∀ e ∈ (connectAccountStatus (some stubOk) reqAid).snd, e.succeeded = false)) ∧
     ((createPaymentIntent (some stubOk) reqPay10000).snd.length = 1 ∧
      ((createPaymentIntent (some stubOk) reqPay10000).fst.status = 500 →
        ∀ e ∈ (createPaymentIntent (some stubOk) reqPay10000).snd, e.succeeded = false)) ∧
     ((payoutDashboardLink (some stubOk) reqAid).snd.length = 1 ∧
      ((payoutDashboardLink (some stubOk) reqAid).fst.status = 500 →
        ∀ e ∈ (payoutDashboardLink (some stubOk) reqAid).snd, e.succeeded = false)) ∧
     (1 ≤ (createConnectAccount (some stubOk) reqConnectB1).snd.length ∧
      (createConnectAccount (some stubOk) reqConnectB1).snd.length ≤ 2)) :=
  ⟨rfl, rfl, rfl,
   C2_amended_single_call_atomicity stubOk reqAid rfl reqPay10000 rfl reqAid rfl
     reqConnectB1 rfl⟩

/-- Claim C9: required-field presence is decided by JS falsiness, so a
present-but-falsy field is treated as missing: amount 0 on
POST /create-payment-intent is answered 400 with no external call (the
fee computation is never reached), and an empty-string bandId, email,
accountId or bandStripeAccountId on the corresponding business endpoint is
likewise answered 400 with no external call. -/
theorem C9_falsy_fields_rejected (st : Option StripeStub) :
    (∀ req : PaymentIntentReq, req.amount = some 0 →
      (createPaymentIntent st req).fst.status = 400 ∧ (createPaymentIntent st req).snd = []) ∧
    (∀ req : PaymentIntentReq, req.bandStripeAccountId = some "" →
      (createPaymentIntent st req).fst.status = 400 ∧ (createPaymentIntent st req).snd = []) ∧
    (∀ req : ConnectAccountReq, req.bandId = some "" ∨ req.email = some "" →
      (createConnectAccount st req).fst.status = 400 ∧ (createConnectAccount st req).snd = []) ∧
    (∀ req : AccountIdReq, req.accountId = some "" →
      ((connectAccountStatus st req).fst.status = 400 ∧ (connectAccountStatus st req).snd = []) ∧
      ((payoutDashboardLink st req).fst.status = 400 ∧ (payoutDashboardLink st req).snd = [])) := by
  refine ⟨fun req h => ?_, fun req h => ?_, fun req h => ?_, fun req h => ?_⟩
  · rw [createPaymentIntent_invalid st req (by simp [h, intTruthy])]
    exact ⟨rfl, rfl⟩
  · rw [createPaymentIntent_invalid st req (by simp [h, strTruthy])]
    exact ⟨rfl, rfl⟩
  · have hc : (strTruthy req.bandId && strTruthy req.email) = false := by
      rcases h with h | h <;> simp [h, strTruthy]
    rw [createConnectAccount_invalid st req hc]
    exact ⟨rfl, rfl⟩
  · constructor
    · rw [connectAccountStatus_invalid st req (by simp [h, strTruthy])]
      exact ⟨rfl, rfl⟩
    · rw [payoutDashboardLink_invalid st req (by simp [h, strTruthy])]
      exact ⟨rfl, rfl⟩

theorem C9_falsy_fields_rejected_witness :
    reqPayZero.amount = some 0 ∧
    reqPayEmptyDest.bandStripeAccountId = some "" ∧
    (reqConnectEmptyBand.bandId = some "" ∨ reqConnectEmptyBand.email = some "") ∧
    reqAidEmpty.accountId = some "" ∧
    ((createPaymentIntent (some stubOk) reqPayZero).fst.status = 400 ∧
     (createPaymentIntent (some stubOk) reqPayZero).snd = []) ∧
    ((createPaymentIntent (some stubOk) reqPayEmptyDest).fst.status = 400 ∧
     (createPaymentIntent (some stubOk) reqPayEmptyDest).snd = []) ∧
    ((createConnectAccount (some stubOk) reqConnectEmptyBand).fst.status = 400 ∧
     (createConnectAccount (some stubOk) reqConnectEmptyBand).snd = []) ∧
    (((connectAccountStatus (some stubOk) reqAidEmpty).fst.status = 400 ∧
      (connectAccountStatus (some stubOk) reqAidEmpty).snd = []) ∧
     ((payoutDashboardLink (some stubOk) reqAidEmpty).fst.status = 400 ∧
      (payoutDashboardLink (some stubOk) reqAidEmpty).snd = [])) :=
  ⟨rfl, rfl, Or.inl rfl, rfl,
   (C9_falsy_fields_rejected (some stubOk)).1 reqPayZero rfl,
   (C9_falsy_fields_rejected (some stubOk)).2.1 reqPayEmptyDest rfl,
   (C9_falsy_fields_rejected (some stubOk)).2.2.1 reqConnectEmptyBand (Or.inl rfl),
   (C9_falsy_fields_rejected (some stubOk)).2.2.2 reqAidEmpty rfl⟩

/-- Claim C10: in every successful POST /create-payment-intent handling, a
single fee value is used consistently in all three places it appears: the
application_fee_amount and the metadata platformFee sent to the platform
in the one external call both equal the platformFee field of the response,
and platformFee plus bandAmount equals the requested amount. -/
theorem C10_fee_used_consistently (s : StripeStub) (req : PaymentIntentReq) (a : Int)
    (hamt : req.amount = some a)
    (h200 : (createPaymentIntent (some s) req).fst.status = 200) :
    ∃ f p,
      (createPaymentIntent (some s) req).snd = [⟨.paymentIntentsCreate p, true⟩] ∧
      p.applicationFeeAmount = f ∧
      p.metadataPlatformFee = f ∧
      (createPaymentIntent (some s) req).fst.field "platformFee" = some (.num f) ∧
      (createPaymentIntent (some s) req).fst.field "bandAmount" = some (.num (a - f)) ∧
      f + (a - f) = a := by
  cases hc : intTruthy req.amount && strTruthy req.bandStripeAccountId with
  | false =>
    rw [createPaymentIntent_invalid (some s) req hc] at h200
    exact absurd h200 (by decide)
  | true =>
    rw [createPaymentIntent_validated s req hc, hamt, Option.getD_some] at h200 ⊢
    cases hres : s.paymentIntentsCreate (paymentIntentParams a (req.currency.getD "usd")
        (req.bandStripeAccountId.getD "") req.description) with
    | error msg =>
      simp [createPaymentIntentCore, hres, errorResponse] at h200
    | ok intent =>
      refine ⟨mathRound5pct a,
        paymentIntentParams a (req.currency.getD "usd")
          (req.bandStripeAccountId.getD "") req.description,
        ?_, rfl, rfl, ?_, ?_, by omega⟩
      · simp [createPaymentIntentCore, hres]
      · simp [createPaymentIntentCore, hres, HttpResponse.field, Json.getField]
      · simp [createPaymentIntentCore, hres, HttpResponse.field, Json.getField]

theorem C10_fee_used_consistently_witness :
    reqPay10000.amount = some 10000 ∧
    (createPaymentIntent (some stubOk) reqPay10000).fst.status = 200 ∧
    (∃ f p,
      (createPaymentIntent (some stubOk) reqPay10000).snd = [⟨.paymentIntentsCreate p, true⟩] ∧
      p.applicationFeeAmount = f ∧
      p.metadataPlatformFee = f ∧
      (createPaymentIntent (some stubOk) reqPay10000).fst.field "platformFee" = some (.num f) ∧
      (createPaymentIntent (some stubOk) reqPay10000).fst.field "bandAmount" =
        some (.num (10000 - f)) ∧
      f + (10000 - f) = 10000) ∧
    (createPaymentIntent (some stubOk) reqPay10000).snd =
      [⟨.paymentIntentsCreate ⟨10000, "usd", 500, "acct_1", none, true, "acct_1", 500⟩, true⟩] :=
  ⟨rfl, rfl, C10_fee_used_consistently stubOk reqPay10000 10000 rfl rfl, rfl⟩
